import Mathlib

/-!
Verification model of the GNA toolkit flow-enrichment and rotating-sink
pipeline (`src/gnat/src/ipfix/export_parquet.c` and its headers).

Modelling conventions:
* C unsigned integers are `Nat`; narrowing conversions are explicit
  `% 2^w` reductions; the `uint32 -> int32` reinterpretation used by
  `duckdb_append_int32` is `int32OfUInt32`.
* The external collaborators (libmaxminddb lookups, nDPI name/category
  resolution, `ndpi_risk2score`) are oracle functions carried in the
  `Collaborators` structure; `none` for an `MMDB_s*` handle models a
  NULL database pointer.
* The single `float` computation in the source (the PCR ratio) is
  modelled bit-faithfully: every operation on a C `float` value is one
  IEEE 754 binary32 rounding (`toF32`, round to nearest, ties to even)
  of the exact result, and the final C `round` is half away from zero
  (`cround`).  The model covers the normal range (no overflow or
  subnormal handling), which contains every value the pipeline can
  produce from `uint64` byte counts.  The exact-arithmetic value of
  the spec's words is kept separately as `pcrExact` for comparison.
* Filesystem effects of the sink close/rotate paths are reified as a
  list of `FsAct` actions in program order.
-/

namespace Gnat

/-- One decoded IPFIX record, the subset of `YAF_FLOW_RECORD`
(`src/gnat/src/ipfix/yaf_record.h`) read by the enrichment transform in
`AppendIpfixRecord`/`WriteIpfixRecord`.  The IPv6 address byte arrays are
represented by the text that `air_ip6addr_buf_print` would produce for
them, since the pipeline only ever uses their printed form. -/
structure YAF_FLOW_RECORD where
  protocolIdentifier : Nat
  sourceIPv4Address : Nat
  destinationIPv4Address : Nat
  dataByteCount : Nat
  reverseDataByteCount : Nat
  ndpi_master : Nat
  ndpi_sub : Nat
  ndpi_risk : Nat
  sourceIPv6Str : String
  destinationIPv6Str : String
deriving DecidableEq

/-- Result of one MMDB ASN lookup: the optional
`autonomous_system_number` entry and the optional
`autonomous_system_organization` entry (each present only when the
record `has_data` with the expected type). -/
structure AsnEntry where
  num : Option Nat
  org : Option String

/-- The external collaborators of the pipeline: the two optional
libmaxminddb handles and the nDPI functions.  A `none` database models a
NULL `MMDB_s*`.  A country lookup yields `some iso` exactly when
`MMDB_lookup_string` succeeds, finds an entry, and the
`country`/`iso_code` value is a UTF-8 string; an ASN lookup yields
`some e` when the address is found.  `ndpi_name` stands for
`ndpi_protocol2name`, `ndpi_category` for
`ndpi_category_get_name (ndpi_get_proto_category ...)`, and
`risk2score` for `ndpi_risk2score`. -/
structure Collaborators where
  asn_mmdb : Option (String → Option AsnEntry)
  country_mmdb : Option (String → Option String)
  ndpi_name : Nat → Nat → String
  ndpi_category : Nat → Nat → String
  risk2score : Nat → Nat

/-- Character `i` of a C string; past the terminator the source never
reads (short-circuit `&&`), so the NUL default is only a formality. -/
def charAt (s : String) (i : Nat) : Char :=
  s.data.getD i (Char.ofNat 0)

/-- ASCII lower-casing of one character, as done by `ToLowerString`
(`export_parquet.c` line 15) and by `tolower` in the C locale. -/
def asciiLower (c : Char) : Char :=
  if 'A' ≤ c ∧ c ≤ 'Z' then Char.ofNat (c.toNat + 32) else c

/-- `ToLowerString` (`export_parquet.c` line 15): in-place ASCII
lower-casing of a buffer. -/
def ToLowerString (s : String) : String :=
  ⟨s.data.map asciiLower⟩

/-- The `strncpy` bounded copy used for MMDB string results:
`len = data_size > bufSize ? bufSize - 1 : data_size` characters are
kept. -/
def mmdbStrTrunc (bufSize : Nat) (s : String) : String :=
  if s.length > bufSize then s.take (bufSize - 1) else s

/-- Dotted-quad rendering of a host-order IPv4 address, as produced by
`air_ipaddr_buf_print` (airframe collaborator). -/
def ipv4ToString (ip : Nat) : String :=
  toString ((ip / 16777216) % 256) ++ "." ++ toString ((ip / 65536) % 256) ++ "." ++
    toString ((ip / 256) % 256) ++ "." ++ toString (ip % 256)

/-- `IsPrivateAddress` (`export_parquet.c` line 211): RFC1918 detection
by character tests on the printed address. -/
def IsPrivateAddress (ip : String) : Bool :=
  if charAt ip 0 = '1' then
    if charAt ip 1 = '0' ∧ charAt ip 2 = '.' then
      true
    else if charAt ip 1 = '9' ∧ charAt ip 2 = '2' ∧ charAt ip 3 = '.' ∧
        charAt ip 4 = '1' ∧ charAt ip 5 = '6' ∧ charAt ip 6 = '8' ∧ charAt ip 7 = '.' then
      true
    else if charAt ip 1 = '7' ∧ charAt ip 2 = '2' ∧ charAt ip 3 = '.' then
      if charAt ip 4 = '1' ∧ charAt ip 6 = '.' then
        charAt ip 5 = '6' ∨ charAt ip 5 = '7' ∨ charAt ip 5 = '8' ∨ charAt ip 5 = '9'
      else if charAt ip 4 = '2' ∧ charAt ip 6 = '.' then
        charAt ip 5 = '0' ∨ charAt ip 5 = '1' ∨ charAt ip 5 = '2' ∨ charAt ip 5 = '3' ∨
          charAt ip 5 = '4' ∨ charAt ip 5 = '5' ∨ charAt ip 5 = '6' ∨ charAt ip 5 = '7' ∨
          charAt ip 5 = '8' ∨ charAt ip 5 = '9'
      else if charAt ip 4 = '3' ∧ charAt ip 6 = '.' then
        charAt ip 5 = '0' ∨ charAt ip 5 = '1'
      else
        false
    else
      false
  else
    false

/-- `IsMulticastAddress` (`export_parquet.c` line 245):
`(ip & 0xE0000000) == 0xE0000000`. -/
def IsMulticastAddress (ip : Nat) : Bool :=
  ip &&& 0xE0000000 = 0xE0000000

/-- `IsBroadcastAddress` (`export_parquet.c` line 252):
`(ip & 0xFF000000) == 0xFF000000`. -/
def IsBroadcastAddress (ip : Nat) : Bool :=
  ip &&& 0xFF000000 = 0xFF000000

/-- C `round`: round to nearest, halves away from zero. -/
def cround (q : ℚ) : ℤ :=
  if 0 ≤ q then ⌊q + 1 / 2⌋ else ⌈q - 1 / 2⌉

/-- The PCR value stated by the spec (§4.1): the exact real-arithmetic
ratio `(f - r) / (f + r)`, scaled by 10 and rounded to nearest.  This
definition follows the spec's words; it is the comparison point for
the float pipeline `pcrValF` below and is NOT what the program
computes (the program evaluates the ratio in single-precision float,
which can land on the other side of a rounding boundary). -/
def pcrExact (f r : Nat) : ℤ :=
  if f + r = 0 then 0
  else cround (((f : ℚ) - (r : ℚ)) / ((f : ℚ) + (r : ℚ)) * 10)

/-- Fuel-driven binary logarithm: `log2fuel fuel n` halves `n` until it
reaches 1, counting the steps (structural recursion so that the kernel
can evaluate it). -/
def log2fuel : Nat → Nat → Nat
  | 0, _ => 0
  | fuel + 1, n => if n ≤ 1 then 0 else log2fuel fuel (n / 2) + 1

/-- Floor of the base-2 logarithm of a natural number (0 for 0). -/
def natLog2 (n : Nat) : Nat := log2fuel n n

/-- Round a rational to an integer, ties to even: the rounding used at
each IEEE 754 binary32 operation. -/
def rne (x : ℚ) : ℤ :=
  if 2 * x < 2 * ⌊x⌋ + 1 then ⌊x⌋
  else if 2 * ⌊x⌋ + 1 < 2 * x then ⌊x⌋ + 1
  else if ⌊x⌋ % 2 = 0 then ⌊x⌋ else ⌊x⌋ + 1

/-- Floor of the base-2 logarithm of a positive rational, computed from
the bit lengths of numerator and denominator with a one-step
correction. -/
def qexp2 (q : ℚ) : ℤ :=
  if (2 : ℚ) ^ ((natLog2 q.num.toNat : ℤ) - (natLog2 q.den : ℤ)) ≤ q then
    (natLog2 q.num.toNat : ℤ) - (natLog2 q.den : ℤ)
  else (natLog2 q.num.toNat : ℤ) - (natLog2 q.den : ℤ) - 1

/-- IEEE 754 binary32 rounding of a positive rational in the normal
range: round the 24-bit significand to nearest, ties to even. -/
def toF32pos (q : ℚ) : ℚ :=
  ((rne (q * (2 : ℚ) ^ (23 - qexp2 q)) : ℤ) : ℚ) * (2 : ℚ) ^ (qexp2 q - 23)

/-- IEEE 754 binary32 rounding of a rational (normal range; overflow
and subnormals do not arise for the values this pipeline produces from
`uint64` byte counts). -/
def toF32 (q : ℚ) : ℚ :=
  if q = 0 then 0 else if q < 0 then -toF32pos (-q) else toF32pos q

/-- Single-precision float addition: binary32 rounding of the exact
sum. -/
def fadd (a b : ℚ) : ℚ := toF32 (a + b)

/-- Single-precision float subtraction. -/
def fsub (a b : ℚ) : ℚ := toF32 (a - b)

/-- Single-precision float multiplication. -/
def fmul (a b : ℚ) : ℚ := toF32 (a * b)

/-- Single-precision float division. -/
def fdiv (a b : ℚ) : ℚ := toF32 (a / b)

/-- The PCR value the program computes (`export_parquet.c` lines
300-310) before the casts: `0` when both application byte counts are
zero, otherwise
`round(((float)f - (float)r) / ((float)f + (float)r) * 10)` with every
float operation modelled as one binary32 rounding and C `round` as
half away from zero. -/
def pcrValF (f r : Nat) : ℤ :=
  if f + r = 0 then 0
  else cround (fmul (fdiv (fsub (toF32 (f : ℚ)) (toF32 (r : ℚ)))
    (fadd (toF32 (f : ℚ)) (toF32 (r : ℚ)))) 10)

/-- C conversion of a signed value to `uint32_t` (reduction mod 2^32;
for the negative float-to-unsigned cast this is the behavior observed
on the target platforms). -/
def uint32OfInt (z : ℤ) : Nat :=
  (z % 4294967296).toNat

/-- Reinterpretation of a `uint32_t` argument as the `int32_t`
parameter of `duckdb_append_int32`. -/
def int32OfUInt32 (n : Nat) : ℤ :=
  if (n : ℤ) % 4294967296 < 2147483648 then (n : ℤ) % 4294967296
  else (n : ℤ) % 4294967296 - 4294967296

/-- The PCR column as written: `pcr` is a `uint32_t` holding the cast
`round` result of the float pipeline and is passed to
`duckdb_append_int32`. -/
def PcrColumn (f r : Nat) : ℤ :=
  int32OfUInt32 (uint32OfInt (pcrValF f r))

/-- Country column logic of `AppendIpfixRecord` (lines 483-553) for one
endpoint: the buffer starts as `"na"`; only when a country database is
configured is it replaced by `"private"` (private endpoint) or by the
lower-cased, length-limited ISO code of a successful lookup. -/
def countryOf (db : Option (String → Option String)) (priv : Bool) (abuf : String) : String :=
  match db with
  | none => "na"
  | some lookup =>
    if priv then "private"
    else
      match lookup abuf with
      | none => "na"
      | some iso => ToLowerString (mmdbStrTrunc 32 iso)

/-- ASN / ASN-organization logic of `AppendIpfixRecord` (lines 555-714)
for one endpoint.  With no ASN database both stay `(0, "na")`.
Otherwise the labeling block (lines 566-605) computes the
multicast/broadcast flags and a first organization label, and then
either the MMDB lookup runs (public endpoint) or the label is
overwritten with `"private"` and, for a non-zero IPv4 address, the
synthetic ASN `64512 + ((ip >> 8) % 1024)` is produced. -/
def asnOf (db : Option (String → Option AsnEntry)) (ipv4 : Nat) (priv : Bool)
    (abuf : String) : Nat × String :=
  match db with
  | none => (0, "na")
  | some lookup =>
    let multicast := if ipv4 ≠ 0 then IsMulticastAddress ipv4 else false
    let broadcast :=
      if ipv4 ≠ 0 ∧ ¬priv ∧ ¬multicast then IsBroadcastAddress ipv4 else false
    let org0 : String :=
      if ipv4 ≠ 0 then
        if priv then "private"
        else if multicast then "multicast"
        else if broadcast then "broadcast"
        else "na"
      else "na"
    if ¬priv ∧ ¬multicast ∧ ¬broadcast then
      match lookup abuf with
      | none => (0, org0)
      | some e =>
        let asn := match e.num with | some a => a | none => 0
        let org :=
          match e.org with
          | some s => if s.length > 0 then ToLowerString (mmdbStrTrunc 32 s) else org0
          | none => org0
        (asn, org)
    else
      (if ipv4 ≠ 0 then 64512 + ((ipv4 / 256) % 1024) else 0, "private")

/-- The printed source address (lines 327-338): the IPv4 formatter when
either IPv4 address is non-zero, otherwise the IPv6 formatter. -/
def sabufOf (f : YAF_FLOW_RECORD) : String :=
  if f.sourceIPv4Address ≠ 0 ∨ f.destinationIPv4Address ≠ 0 then
    ipv4ToString f.sourceIPv4Address
  else f.sourceIPv6Str

/-- The printed destination address (lines 327-338). -/
def dabufOf (f : YAF_FLOW_RECORD) : String :=
  if f.sourceIPv4Address ≠ 0 ∨ f.destinationIPv4Address ≠ 0 then
    ipv4ToString f.destinationIPv4Address
  else f.destinationIPv6Str

/-- nDPI application-id and category columns (lines 739-757): both
strings are lower-cased; when the category buffer is exactly `"vpn"`
the code runs `g_string_append_printf(buffer, "vpn.")`, i.e. it appends
`"vpn."` to the end of the application id. -/
def appidCategoryOf (o : Collaborators) (master sub : Nat) : String × String :=
  let appid := ToLowerString (o.ndpi_name master sub)
  let cat := ToLowerString (o.ndpi_category master sub)
  let appid2 :=
    if cat.length = 3 ∧ charAt cat 0 = 'v' ∧ charAt cat 1 = 'p' ∧ charAt cat 2 = 'n' then
      appid ++ "vpn."
    else appid
  (appid2, cat)

/-- Risk score / severity columns (lines 762-807): for a non-zero risk
bitmask the score is the `uint32_t` cast of `ndpi_risk2score` and the
severity is the descending threshold cascade of the source; for a zero
bitmask both stay zero. -/
def riskOf (risk2score : Nat → Nat) (ndpi_risk : Nat) : Nat × Nat :=
  if ndpi_risk > 0 then
    let score := risk2score ndpi_risk % 4294967296
    let severity :=
      if score ≥ 250 then 6
      else if score ≥ 200 then 5
      else if score ≥ 150 then 4
      else if score ≥ 100 then 3
      else if score ≥ 50 then 2
      else if score ≥ 10 then 1
      else 0
    (score, severity)
  else (0, 0)

/-- `PARQUET_FLOW_SCHEMA_VERSION` (line 258). -/
def PARQUET_FLOW_SCHEMA_VERSION : Nat := 3

/-- The enrichment-relevant columns of one appended row of the `flow`
table.  Pure pass-through columns (timestamps, ports, counters, flag
strings, MACs, ...) are copied verbatim from the record by the source
and are omitted here. -/
structure FlowRow where
  stream : Nat
  pcr : ℤ
  saddr : String
  daddr : String
  scountry : String
  dcountry : String
  sasn : Nat
  dasn : Nat
  sasnorg : String
  dasnorg : String
  orient : String
  ndpi_appid : String
  ndpi_category : String
  ndpi_risk_bits : Nat
  ndpi_risk_score : Nat
  ndpi_risk_severity : Nat
deriving DecidableEq

/-- `AppendIpfixRecord` (`export_parquet.c` lines 260-817): the
enrichment transform from one decoded record to one row.  The
`risk_threshold` context field is a parameter of the C function but is
never read by it, so it does not appear here.  The row's
`ndpi_risk_bits` column is written through `duckdb_append_uint32`
(line 803), hence the `% 2^32`. -/
def AppendIpfixRecord (o : Collaborators) (observe : String)
    (f : YAF_FLOW_RECORD) : FlowRow :=
  let sabuf := sabufOf f
  let dabuf := dabufOf f
  let sprivate := IsPrivateAddress sabuf
  let dprivate := IsPrivateAddress dabuf
  { stream := PARQUET_FLOW_SCHEMA_VERSION
    pcr := PcrColumn f.dataByteCount f.reverseDataByteCount
    saddr := sabuf
    daddr := dabuf
    scountry := countryOf o.country_mmdb sprivate sabuf
    dcountry := countryOf o.country_mmdb dprivate dabuf
    sasn := (asnOf o.asn_mmdb f.sourceIPv4Address sprivate sabuf).1
    dasn := (asnOf o.asn_mmdb f.destinationIPv4Address dprivate dabuf).1
    sasnorg := (asnOf o.asn_mmdb f.sourceIPv4Address sprivate sabuf).2
    dasnorg := (asnOf o.asn_mmdb f.destinationIPv4Address dprivate dabuf).2
    orient := (if sprivate then "i" else "o") ++ (if dprivate then "i" else "o")
    ndpi_appid := (appidCategoryOf o f.ndpi_master f.ndpi_sub).1
    ndpi_category := (appidCategoryOf o f.ndpi_master f.ndpi_sub).2
    ndpi_risk_bits := f.ndpi_risk % 4294967296
    ndpi_risk_score := (riskOf o.risk2score f.ndpi_risk).1
    ndpi_risk_severity := (riskOf o.risk2score f.ndpi_risk).2 }

/-- `WriteIpfixRecord` (lines 819-845): a record with protocol 0 and
destination IPv4 address 0 is skipped with status 0 and no row; the
`append_ok` flag models success of the duckdb append calls and of
`duckdb_appender_end_row` (status -1 and no completed row on failure);
otherwise status 1 with the appended row. -/
def WriteIpfixRecord (o : Collaborators) (observe : String) (append_ok : Bool)
    (f : YAF_FLOW_RECORD) : ℤ × Option FlowRow :=
  if f.protocolIdentifier = 0 ∧ f.destinationIPv4Address = 0 then (0, none)
  else if append_ok then (1, some (AppendIpfixRecord o observe f))
  else (-1, none)

/-- `UINT64_MAX`: the value actually stored by
`gnat->ipfix_flows = -1`, since `ipfix_flows` is a `uint64_t`
(`io_context.h`). -/
def U64_MAX : Nat := 18446744073709551615

/-- The counter and table state of a `GNAT_CONTEXT` that the drain and
close paths read and write: the `ipfix_flows` and
`ipfix_flows_skipped` counters and the rows of the duckdb `flow`
table. -/
structure GnatCounters where
  ipfix_flows : Nat
  ipfix_flows_skipped : Nat
  table : List FlowRow
deriving DecidableEq

/-- Result of one drain callback invocation: the updated context state,
the `MIO_F_CTL_SINKCLOSE` / `MIO_F_CTL_ERROR` / `MIO_F_CTL_TERMINATE`
bits it set in `*flags`, and its gboolean return value. -/
structure DrainOut where
  gnat : GnatCounters
  sinkclose : Bool
  error : Bool
  terminate : Bool
  ret : Bool
deriving DecidableEq

/-- How the `fBufNext` loop of `ReaderToFileSink` ends once the input
records are exhausted: `FB_ERROR_EOF`, `FB_ERROR_IPFIX` (oversized
message), or any other error. -/
inductive ReaderEnd where
  | eof
  | oversized
  | malformed
deriving DecidableEq

/-- How the `fBufNext` loop of `SocketToFileSink` ends:
`FB_ERROR_EOM`, `FB_ERROR_NLREAD` (no packet), `FB_ERROR_EOF` (peer
closed), or any other error. -/
inductive SocketEnd where
  | eom
  | nlread
  | eof
  | bad
deriving DecidableEq

/-- `ReaderToFileSink` (`export_parquet.c` lines 1090-1156): drain the
file-replay buffer.  Each input is a record paired with the success of
its duckdb append.  On append failure the source stores `-1` into the
`uint64_t` flows counter (hence `U64_MAX`), sets
`SINKCLOSE|ERROR` and returns FALSE; a written record increments
`ipfix_flows`, a §4.1-skipped record increments
`ipfix_flows_skipped`; at end of input EOF and oversized messages are
non-error terminations with `SINKCLOSE|TERMINATE`, anything else adds
`ERROR` and returns FALSE. -/
def ReaderToFileSink (o : Collaborators) (observe : String) (g : GnatCounters) :
    List (YAF_FLOW_RECORD × Bool) → ReaderEnd → DrainOut
  | [], e =>
    match e with
    | .eof => ⟨g, true, false, true, true⟩
    | .oversized => ⟨g, true, false, true, true⟩
    | .malformed => ⟨g, true, true, true, false⟩
  | (f, ok) :: rest, e =>
    let w := WriteIpfixRecord o observe ok f
    if w.1 < 0 then
      ⟨{ g with ipfix_flows := U64_MAX }, true, true, false, false⟩
    else if w.1 > 0 then
      ReaderToFileSink o observe
        { g with ipfix_flows := g.ipfix_flows + 1, table := g.table ++ w.2.toList } rest e
    else
      ReaderToFileSink o observe
        { g with ipfix_flows_skipped := g.ipfix_flows_skipped + 1 } rest e

/-- `SocketToFileSink` (`export_parquet.c` lines 1158-1267), record
loop and loop-exit classification (lines 1205-1267).  The
rotation-timer and quit checks at the top of the callback and the
`fbListenerWait` call are outside the per-record behavior modelled
here.  Note that this loop increments `ipfix_flows` for every
non-negative `WriteIpfixRecord` status, including the skip status 0,
and never touches `ipfix_flows_skipped`. -/
def SocketToFileSink (o : Collaborators) (observe : String) (g : GnatCounters) :
    List (YAF_FLOW_RECORD × Bool) → SocketEnd → DrainOut
  | [], e =>
    match e with
    | .eom => ⟨g, false, false, false, true⟩
    | .nlread => ⟨g, false, false, false, true⟩
    | .eof => ⟨g, true, false, false, true⟩
    | .bad => ⟨g, false, true, false, false⟩
  | (f, ok) :: rest, e =>
    let w := WriteIpfixRecord o observe ok f
    if w.1 < 0 then
      ⟨{ g with ipfix_flows := U64_MAX }, false, true, false, false⟩
    else
      SocketToFileSink o observe
        { g with ipfix_flows := g.ipfix_flows + 1, table := g.table ++ w.2.toList } rest e

/-- A filesystem effect of the sink export path: a `COPY ... TO` of the
whole `flow` table into a path, or a `rename` of a path onto another. -/
inductive FsAct where
  | exportTable (path : String)
  | rename (src : String) (dst : String)
deriving DecidableEq

/-- `CloseFileSink` (`export_parquet.c` lines 995-1088).  `uuid_ok`,
`export_ok` and `rename_ok` model success of the
`FLOW_GENERATE_UUID` query, of the parquet `COPY`, and of `rename`;
`time_str` is the strftime/usec/offset portion of the RFC3339-like
name.  Returns the gboolean status and the filesystem actions
performed, in order.  The export runs only when `ipfix_flows > 0`
(a `uint64_t` comparison). -/
def CloseFileSink (g : GnatCounters) (output_dir observe : String)
    (uuid_ok export_ok rename_ok : Bool) (time_str : String) : Bool × List FsAct :=
  if ¬uuid_ok then (false, [])
  else if output_dir.length = 0 then (false, [])
  else
    let name := observe ++ "-" ++ time_str
    let tmp := output_dir ++ "/." ++ name
    let fin := output_dir ++ "/" ++ name ++ ".parquet"
    if g.ipfix_flows > 0 then
      if ¬export_ok then (false, [FsAct.exportTable tmp])
      else if ¬rename_ok then (false, [FsAct.exportTable tmp])
      else (true, [FsAct.exportTable tmp, FsAct.rename tmp fin])
    else (true, [])

/-- `RotateFileSink` (`export_parquet.c` lines 921-993).  The source
first breaks (status FALSE, nothing exported) when `ipfix_flows <= 0`
(a `uint64_t`, so only when it is 0), then breaks with a
"missing output specifier" message when `strlen(output_dir)` is
non-zero (the check in the source is inverted); otherwise it builds the
dot-prefixed temp name `.{observe}.{outtime}` and the final name
`gnat.{observe}.{outtime}.parquet` and exports and renames when
`ipfix_flows > 0`. -/
def RotateFileSink (g : GnatCounters) (output_dir observe : String)
    (export_ok rename_ok : Bool) (outtime : Nat) : Bool × List FsAct :=
  if g.ipfix_flows ≤ 0 then (false, [])
  else if output_dir.length ≠ 0 then (false, [])
  else
    let fname := "." ++ observe ++ "." ++ toString outtime
    let tmp := output_dir ++ "/" ++ fname
    let fin := output_dir ++ "/gnat" ++ fname ++ ".parquet"
    if g.ipfix_flows > 0 then
      if ¬export_ok then (false, [FsAct.exportTable tmp])
      else if ¬rename_ok then (false, [FsAct.exportTable tmp])
      else (true, [FsAct.exportTable tmp, FsAct.rename tmp fin])
    else (true, [])

/-- `FLOW_SCHEMA` (`io_context` header): the versioned duckdb schema of
the `flow` table, written as the same adjacent-string-literal pieces as
the C macro. -/
def FLOW_SCHEMA : String :=
  "CREATE TABLE flow (" ++
  "stream UINTEGER,id UUID," ++
  "observe VARCHAR,stime TIMESTAMP,etime TIMESTAMP,dur UINTEGER,rtt UINTEGER,pcr INTEGER," ++
  "proto VARCHAR,saddr VARCHAR,daddr VARCHAR,sport USMALLINT,dport USMALLINT," ++
  "iflags VARCHAR,uflags VARCHAR,stcpseq UINTEGER,dtcpseq UINTEGER," ++
  "svlan USMALLINT,dvlan USMALLINT,spkts UBIGINT,dpkts UBIGINT," ++
  "sbytes UBIGINT,dbytes UBIGINT,sentropy UTINYINT,dentropy UTINYINT," ++
  "siat UBIGINT,diat UBIGINT,sstdev UBIGINT,dstdev UBIGINT," ++
  "stcpurg UINTEGER,dtcpurg UINTEGER,ssmallpktcnt UINTEGER,dsmallpktcnt UINTEGER," ++
  "slargepktcnt UINTEGER,dlargepktcnt UINTEGER," ++
  "snonemptypktcnt UINTEGER,dnonemptypktcnt UINTEGER," ++
  "sfirstnonemptycnt USMALLINT,dfirstnonemptycnt USMALLINT," ++
  "smaxpktsize USMALLINT,dmaxpktsize USMALLINT," ++
  "sstdevpayload USMALLINT,dstdevpayload USMALLINT," ++
  "spd VARCHAR,reason VARCHAR,smac VARCHAR,dmac VARCHAR," ++
  "scountry VARCHAR,dcountry VARCHAR,sasn UINTEGER,dasn UINTEGER," ++
  "sasnorg VARCHAR,dasnorg VARCHAR,orient VARCHAR,tag VARCHAR[]," ++
  "hbos_score DOUBLE,hbos_severity UTINYINT,hbos_map MAP(VARCHAR, FLOAT)," ++
  "ndpi_appid VARCHAR,ndpi_category VARCHAR,ndpi_risk_bits UBIGINT,ndpi_risk_score UINTEGER," ++
  "ndpi_risk_severity UTINYINT, ndpi_risk_list VARCHAR[],trigger TINYINT);"

/-- `FLOW_GENERATE_UUID` (`io_context` header): the bulk row-identifier
assignment run once at final close. -/
def FLOW_GENERATE_UUID : String :=
  " UPDATE flow SET id = uuid()"

/-- The risk-severity bucketing stated by the spec (§4.1 "Risk
scoring"), written from the spec words for comparison against the
source cascade in `riskOf`. -/
def severitySpec (score : Nat) : Nat :=
  if score < 10 then 0
  else if score < 50 then 1
  else if score < 100 then 2
  else if score < 150 then 3
  else if score < 200 then 4
  else if score < 250 then 5
  else 6

/-- Collaborator fixture: no lookup databases, fixed DPI labels. -/
def oNone : Collaborators := ⟨none, none, fun _ _ => "x", fun _ _ => "y", fun _ => 0⟩

/-- Collaborator fixture: an ASN database that never finds an entry,
no country database. -/
def oAsn : Collaborators := ⟨some (fun _ => none), none, fun _ _ => "x", fun _ _ => "y", fun _ => 0⟩

/-- Collaborator fixture: DPI resolves application `"OpenVPN"` in
category `"VPN"`. -/
def oVpn : Collaborators := ⟨none, none, fun _ _ => "OpenVPN", fun _ _ => "VPN", fun _ => 0⟩

/-- Record fixture: a TCP flow 8.8.8.8 -> 1.1.1.1 with all modelled
counters zero. -/
def flowBase : YAF_FLOW_RECORD := ⟨6, 134744072, 16843009, 0, 0, 0, 0, 0, "", ""⟩

/-- Record fixture: the IPv6 Hop-by-Hop artifact shape (protocol 0,
destination IPv4 address 0). -/
def flowSkip : YAF_FLOW_RECORD := ⟨0, 0, 0, 0, 0, 0, 0, 0, "::", "::"⟩

/-- Record fixture: source 10.3.255.1 (private, synthetic-ASN segment
1023). -/
def flowPriv1023 : YAF_FLOW_RECORD := { flowBase with sourceIPv4Address := 168034049 }

/-- Record fixture: source 10.0.0.1. -/
def flowPriv0 : YAF_FLOW_RECORD := { flowBase with sourceIPv4Address := 167772161 }

/-- Record fixture: source 224.0.0.1 (multicast), destination
255.255.255.255 (broadcast). -/
def flowMcastBcast : YAF_FLOW_RECORD :=
  { flowBase with
      protocolIdentifier := 17
      sourceIPv4Address := 3758096385
      destinationIPv4Address := 4294967295 }

/-- Record fixture: risk bitmask with only bit 32 set. -/
def flowRiskHigh : YAF_FLOW_RECORD := { flowBase with ndpi_risk := 4294967296 }

/-- Record fixture: byte counts 33554433 (2^25 + 1) forward and
30358772 reverse, for which the float-evaluated PCR (0) differs from
the exactly rounded ratio (1): `(float)(2^25 + 1)` already loses the
low bit. -/
def flowPcr : YAF_FLOW_RECORD :=
  { flowBase with
      dataByteCount := 33554433
      reverseDataByteCount := 30358772 }

/-- C `round` of exactly 10 is 10. -/
theorem cround_ten : cround 10 = 10 := by
  unfold cround
  rw [if_pos (by norm_num)]
  rw [show (10 : ℚ) + 1 / 2 = 21 / 2 by norm_num]
  rw [Int.floor_eq_iff] <;> norm_num

/-- C `round` of exactly -10 is -10. -/
theorem cround_neg_ten : cround (-10) = -10 := by
  unfold cround
  rw [if_neg (by norm_num)]
  rw [show (-10 : ℚ) - 1 / 2 = -21 / 2 by norm_num]
  rw [Int.ceil_eq_iff] <;> norm_num

/-- Rounding with C `round` stays in [-10, 10] whenever the argument is
strictly inside (-10.5, 10.5). -/
theorem cround_bounds2 {q : ℚ} (h1 : -(21 / 2) < q) (h2 : q < 21 / 2) :
    -10 ≤ cround q ∧ cround q ≤ 10 := by
  unfold cround
  split
  · rename_i h0
    constructor
    · have : (0 : ℤ) ≤ ⌊q + 1 / 2⌋ := Int.floor_nonneg.mpr (by linarith)
      omega
    · have : ⌊q + 1 / 2⌋ < (11 : ℤ) := by
        apply Int.floor_lt.mpr
        push_cast
        linarith
      omega
  · rename_i h0
    push_neg at h0
    constructor
    · have : (-11 : ℤ) < ⌈q - 1 / 2⌉ := by
        apply Int.lt_ceil.mpr
        push_cast
        linarith
      omega
    · have : ⌈q - 1 / 2⌉ ≤ (0 : ℤ) := Int.ceil_le.mpr (by push_cast; linarith)
      omega

/-- Correctness of the fuel-driven logarithm: with enough fuel it
brackets `n` between consecutive powers of two. -/
theorem log2fuel_spec :
    ∀ fuel n, 1 ≤ n → n ≤ fuel →
      2 ^ log2fuel fuel n ≤ n ∧ n < 2 ^ (log2fuel fuel n + 1) := by
  intro fuel
  induction fuel with
  | zero => intro n h1 h2; omega
  | succ fuel ih =>
    intro n h1 h2
    by_cases hn : n ≤ 1
    · simp only [log2fuel]
      rw [if_pos hn]
      constructor
      · simpa using h1
      · have : n = 1 := by omega
        simp [this]
    · simp only [log2fuel]
      rw [if_neg hn]
      obtain ⟨ha, hb⟩ := ih (n / 2) (by omega) (by omega)
      rw [pow_succ] at hb
      constructor
      · rw [pow_succ]
        omega
      · rw [pow_succ, pow_succ]
        omega

/-- Correctness of `natLog2` on positive inputs. -/
theorem natLog2_spec (n : Nat) (h : 1 ≤ n) :
    2 ^ natLog2 n ≤ n ∧ n < 2 ^ (natLog2 n + 1) :=
  log2fuel_spec n n h le_rfl

/-- `qexp2` computes the floor base-2 logarithm of a positive
rational. -/
theorem qexp2_spec (q : ℚ) (hq : 0 < q) :
    (2 : ℚ) ^ qexp2 q ≤ q ∧ q < (2 : ℚ) ^ (qexp2 q + 1) := by
  have hnum : 0 < q.num := Rat.num_pos.mpr hq
  have hden : 0 < q.den := q.pos
  unfold qexp2
  set a := q.num.toNat with ha_def
  set b := q.den with hb_def
  set La := natLog2 a with hLa_def
  set Lb := natLog2 b with hLb_def
  have ha : 1 ≤ a := by omega
  obtain ⟨ha1, ha2⟩ := natLog2_spec a ha
  obtain ⟨hb1, hb2⟩ := natLog2_spec b hden
  rw [← hLa_def] at ha1 ha2
  rw [← hLb_def] at hb1 hb2
  have hqeq : q = (a : ℚ) / (b : ℚ) := by
    have hcast : ((a : ℕ) : ℚ) = ((q.num : ℤ) : ℚ) := by
      exact_mod_cast congrArg (fun z : ℤ => (z : ℚ)) (Int.toNat_of_nonneg hnum.le)
    rw [hcast, hb_def]
    exact (Rat.num_div_den q).symm
  have hdq : (0 : ℚ) < (b : ℚ) := by exact_mod_cast hden
  have qa1 : (2 : ℚ) ^ La ≤ (a : ℚ) := by exact_mod_cast ha1
  have qa2 : (a : ℚ) < (2 : ℚ) ^ (La + 1) := by exact_mod_cast ha2
  have qb1 : (2 : ℚ) ^ Lb ≤ (b : ℚ) := by exact_mod_cast hb1
  have qb2 : (b : ℚ) < (2 : ℚ) ^ (Lb + 1) := by exact_mod_cast hb2
  have hz1 : (2 : ℚ) ^ ((La : ℤ) - (Lb : ℤ) + 1) =
      (2 : ℚ) ^ (La + 1) / (2 : ℚ) ^ Lb := by
    rw [show (La : ℤ) - (Lb : ℤ) + 1 = ((La + 1 : ℕ) : ℤ) - ((Lb : ℕ) : ℤ) by push_cast; ring]
    rw [zpow_sub₀ (by norm_num : (2 : ℚ) ≠ 0), zpow_natCast, zpow_natCast]
  have hz2 : (2 : ℚ) ^ ((La : ℤ) - (Lb : ℤ) - 1) =
      (2 : ℚ) ^ La / (2 : ℚ) ^ (Lb + 1) := by
    rw [show (La : ℤ) - (Lb : ℤ) - 1 = ((La : ℕ) : ℤ) - ((Lb + 1 : ℕ) : ℤ) by push_cast; ring]
    rw [zpow_sub₀ (by norm_num : (2 : ℚ) ≠ 0), zpow_natCast, zpow_natCast]
  have hw2 : q < (2 : ℚ) ^ ((La : ℤ) - (Lb : ℤ) + 1) := by
    rw [hz1, hqeq, div_lt_div_iff hdq (by positivity)]
    nlinarith [qa2, qb1, pow_pos (show (0:ℚ) < 2 by norm_num) (La + 1)]
  have hw1 : (2 : ℚ) ^ ((La : ℤ) - (Lb : ℤ) - 1) < q := by
    rw [hz2, hqeq, div_lt_div_iff (by positivity) hdq]
    nlinarith [qa1, qb2, pow_pos (show (0:ℚ) < 2 by norm_num) La]
  split_ifs with h
  · exact ⟨h, hw2⟩
  · push_neg at h
    constructor
    · exact le_of_lt hw1
    · rw [show (La : ℤ) - (Lb : ℤ) - 1 + 1 = (La : ℤ) - (Lb : ℤ) by ring]
      exact h

/-- Round to nearest, ties to even, is within half of its input. -/
theorem rne_err (x : ℚ) : |(rne x : ℚ) - x| ≤ 1 / 2 := by
  unfold rne
  have h1 : (⌊x⌋ : ℚ) ≤ x := Int.floor_le x
  have h2 : x < ⌊x⌋ + 1 := Int.lt_floor_add_one x
  split_ifs with ha hb hc <;> rw [abs_le] <;> push_cast at * <;> constructor <;> linarith

/-- Binary32 rounding of a positive rational has relative error at most
2^-24 (one half ulp of a 24-bit significand). -/
theorem toF32pos_err (q : ℚ) (hq : 0 < q) :
    |toF32pos q - q| ≤ q * (1 / 16777216) := by
  obtain ⟨hl, _⟩ := qexp2_spec q hq
  unfold toF32pos
  have hmul : (2 : ℚ) ^ (23 - qexp2 q) * (2 : ℚ) ^ (qexp2 q - 23) = 1 := by
    rw [← zpow_add₀ (by norm_num : (2 : ℚ) ≠ 0)]
    norm_num
  have herr := rne_err (q * (2 : ℚ) ^ (23 - qexp2 q))
  have hpe : (0 : ℚ) < (2 : ℚ) ^ (qexp2 q - 23) := by positivity
  have key : ((rne (q * (2 : ℚ) ^ (23 - qexp2 q)) : ℤ) : ℚ) * (2 : ℚ) ^ (qexp2 q - 23) - q =
      (((rne (q * (2 : ℚ) ^ (23 - qexp2 q)) : ℤ) : ℚ) - q * (2 : ℚ) ^ (23 - qexp2 q)) *
        (2 : ℚ) ^ (qexp2 q - 23) := by
    linear_combination q * hmul
  rw [key, abs_mul, abs_of_pos hpe]
  have step1 :
      |((rne (q * (2 : ℚ) ^ (23 - qexp2 q)) : ℤ) : ℚ) - q * (2 : ℚ) ^ (23 - qexp2 q)| *
        (2 : ℚ) ^ (qexp2 q - 23) ≤ (1 / 2) * (2 : ℚ) ^ (qexp2 q - 23) :=
    mul_le_mul_of_nonneg_right herr hpe.le
  have step2 : (1 / 2) * (2 : ℚ) ^ (qexp2 q - 23) ≤ q * (1 / 16777216) := by
    have he : (1 / 2) * (2 : ℚ) ^ (qexp2 q - 23) = (2 : ℚ) ^ qexp2 q * (1 / 16777216) := by
      rw [show qexp2 q - 23 = qexp2 q + (-23) by ring, zpow_add₀ (by norm_num : (2 : ℚ) ≠ 0)]
      rw [show (2 : ℚ) ^ (-23 : ℤ) = 1 / 8388608 by norm_num]
      ring
    rw [he]
    exact mul_le_mul_of_nonneg_right hl (by norm_num)
  linarith

/-- Binary32 rounding fixes zero. -/
theorem toF32_zero : toF32 0 = 0 := by
  simp [toF32]

/-- Binary32 rounding commutes with negation. -/
theorem toF32_neg (q : ℚ) : toF32 (-q) = -toF32 q := by
  unfold toF32
  rcases lt_trichotomy q 0 with h | h | h
  · rw [if_neg (by simpa using ne_of_lt h), if_neg (by push_neg; linarith),
      if_neg (ne_of_lt h), if_pos h, neg_neg]
  · simp [h]
  · rw [if_neg (by simpa using ne_of_gt h), if_pos (by simpa using h), neg_neg,
      if_neg (ne_of_gt h), if_neg (not_lt.mpr h.le)]

/-- Binary32 rounding has relative error at most 2^-24. -/
theorem toF32_err (q : ℚ) : |toF32 q - q| ≤ |q| * (1 / 16777216) := by
  unfold toF32
  rcases lt_trichotomy q 0 with h | h | h
  · rw [if_neg (ne_of_lt h), if_pos h, abs_of_neg h]
    have herr := toF32pos_err (-q) (by linarith)
    rw [show -toF32pos (-q) - q = -(toF32pos (-q) - -q) by ring, abs_neg]
    exact herr
  · simp [h]
  · rw [if_neg (ne_of_gt h), if_neg (not_lt.mpr h.le), abs_of_pos h]
    exact toF32pos_err q h

/-- Binary32 rounding preserves strict positivity. -/
theorem toF32_pos_of_pos (q : ℚ) (hq : 0 < q) : 0 < toF32 q := by
  have h := toF32_err q
  rw [abs_of_pos hq, abs_le] at h
  nlinarith [h.1]

/-- An upper bound on an input propagates to its binary32 rounding with
one (1 + 2^-24) factor. -/
theorem toF32_abs_le (x B : ℚ) (hB : |x| ≤ B) :
    |toF32 x| ≤ B * (1 + 1 / 16777216) := by
  have he := toF32_err x
  have h2 := abs_sub_abs_le_abs_sub (toF32 x) x
  have h3 : |x| * (1 / 16777216) ≤ B * (1 / 16777216) :=
    mul_le_mul_of_nonneg_right hB (by norm_num)
  have h4 : B * (1 + 1 / 16777216) = B + B * (1 / 16777216) := by ring
  rw [h4]
  linarith

/-- A nonnegative input lower-bounds its binary32 rounding up to one
(1 - 2^-24) factor. -/
theorem toF32_ge (x : ℚ) (hx : 0 ≤ x) : x * (1 - 1 / 16777216) ≤ toF32 x := by
  have he := toF32_err x
  rw [abs_of_nonneg hx, abs_le] at he
  have h4 : x * (1 - 1 / 16777216) = x - x * (1 / 16777216) := by ring
  rw [h4]
  linarith [he.1]

/-- Binary32 rounding fixes 1. -/
theorem toF32_one : toF32 (1 : ℚ) = 1 := by
  have l0 : natLog2 1 = 0 := by decide
  have l1 : natLog2 (Int.toNat 1) = 0 := by decide
  norm_num [toF32, toF32pos, qexp2, rne, l0, l1]

/-- Binary32 rounding fixes 10. -/
theorem toF32_ten : toF32 (10 : ℚ) = 10 := by
  have l0 : natLog2 1 = 0 := by decide
  have l1 : natLog2 (Int.toNat 10) = 3 := by decide
  norm_num [toF32, toF32pos, qexp2, rne, l0, l1]

/-- The float-evaluated PCR is always in [-10, 10]: every rounding
inflates a bound by at most (1 + 2^-24), which keeps the final value
strictly inside (-10.5, 10.5). -/
theorem pcrValF_range (f r : Nat) : -10 ≤ pcrValF f r ∧ pcrValF f r ≤ 10 := by
  unfold pcrValF
  split
  · norm_num
  · rename_i h
    unfold fmul fdiv fsub fadd
    have hfq : (0 : ℚ) ≤ (f : ℚ) := Nat.cast_nonneg f
    have hrq : (0 : ℚ) ≤ (r : ℚ) := Nat.cast_nonneg r
    have hsum1 : (1 : ℚ) ≤ (f : ℚ) + (r : ℚ) := by
      have h0 : 1 ≤ f + r := Nat.pos_of_ne_zero h
      have : (1 : ℚ) ≤ ((f + r : ℕ) : ℚ) := by exact_mod_cast h0
      push_cast at this
      linarith
    have hF0 : 0 ≤ toF32 (f : ℚ) := by
      rcases eq_or_lt_of_le hfq with h' | h'
      · rw [← h', toF32_zero]
      · exact (toF32_pos_of_pos _ h').le
    have hR0 : 0 ≤ toF32 (r : ℚ) := by
      rcases eq_or_lt_of_le hrq with h' | h'
      · rw [← h', toF32_zero]
      · exact (toF32_pos_of_pos _ h').le
    have hFg := toF32_ge (f : ℚ) hfq
    have hRg := toF32_ge (r : ℚ) hrq
    have hA1 : (1 : ℚ) * (1 - 1 / 16777216) ≤ toF32 (f : ℚ) + toF32 (r : ℚ) := by
      have hstep : (1 : ℚ) * (1 - 1 / 16777216) ≤ ((f : ℚ) + (r : ℚ)) * (1 - 1 / 16777216) :=
        mul_le_mul_of_nonneg_right hsum1 (by norm_num)
      have hsplit : ((f : ℚ) + (r : ℚ)) * (1 - 1 / 16777216) =
          (f : ℚ) * (1 - 1 / 16777216) + (r : ℚ) * (1 - 1 / 16777216) := by ring
      linarith
    have hA0 : (0 : ℚ) < toF32 (f : ℚ) + toF32 (r : ℚ) := by linarith
    have hsabs : |toF32 (f : ℚ) - toF32 (r : ℚ)| ≤ toF32 (f : ℚ) + toF32 (r : ℚ) := by
      rw [abs_le]
      constructor <;> linarith
    have hs_bound := toF32_abs_le _ _ hsabs
    have ht_low := toF32_ge _ hA0.le
    have ht0 : (0 : ℚ) < toF32 (toF32 (f : ℚ) + toF32 (r : ℚ)) := toF32_pos_of_pos _ hA0
    have hu : |toF32 (toF32 (f : ℚ) - toF32 (r : ℚ)) / toF32 (toF32 (f : ℚ) + toF32 (r : ℚ))| ≤
        ((1 + 1 / 16777216) / (1 - 1 / 16777216)) := by
      rw [abs_div, abs_of_pos ht0]
      calc |toF32 (toF32 (f : ℚ) - toF32 (r : ℚ))| / toF32 (toF32 (f : ℚ) + toF32 (r : ℚ)) ≤
          ((toF32 (f : ℚ) + toF32 (r : ℚ)) * (1 + 1 / 16777216)) /
            ((toF32 (f : ℚ) + toF32 (r : ℚ)) * (1 - 1 / 16777216)) := by
            apply div_le_div (by positivity) hs_bound (by nlinarith) ht_low
        _ = (1 + 1 / 16777216) / (1 - 1 / 16777216) := by
            rw [mul_div_mul_left _ _ (ne_of_gt hA0)]
    have hq_bound := toF32_abs_le _ _ hu
    have hq10 : |toF32 (toF32 (toF32 (f : ℚ) - toF32 (r : ℚ)) /
        toF32 (toF32 (f : ℚ) + toF32 (r : ℚ))) * 10| ≤
        ((1 + 1 / 16777216) / (1 - 1 / 16777216)) * (1 + 1 / 16777216) * 10 := by
      rw [abs_mul, show |(10 : ℚ)| = 10 by norm_num]
      nlinarith [abs_nonneg (toF32 (toF32 (toF32 (f : ℚ) - toF32 (r : ℚ)) /
        toF32 (toF32 (f : ℚ) + toF32 (r : ℚ))))]
    have hp_bound := toF32_abs_le _ _ hq10
    have hfinal : (((1 : ℚ) + 1 / 16777216) / (1 - 1 / 16777216)) * (1 + 1 / 16777216) * 10 *
        (1 + 1 / 16777216) < 21 / 2 := by norm_num
    have habs := lt_of_le_of_lt hp_bound hfinal
    rw [abs_lt] at habs
    exact cround_bounds2 habs.1 habs.2

/-- Float PCR with a zero reverse byte count: 0 for an empty flow, else
exactly 10 (x/x divides to exactly 1.0 in binary32). -/
theorem pcrValF_fwd (x : Nat) : pcrValF x 0 = if x = 0 then 0 else 10 := by
  unfold pcrValF
  rcases eq_or_ne x 0 with h | h
  · simp [h]
  · rw [if_neg (by simpa using h), if_neg h]
    unfold fmul fdiv fsub fadd
    rw [show ((0 : ℕ) : ℚ) = 0 by norm_num, toF32_zero, sub_zero, add_zero]
    have hx : (0 : ℚ) < (x : ℚ) := by exact_mod_cast Nat.pos_of_ne_zero h
    have hs : 0 < toF32 (toF32 (x : ℚ)) := toF32_pos_of_pos _ (toF32_pos_of_pos _ hx)
    rw [div_self (ne_of_gt hs), toF32_one, one_mul, toF32_ten]
    exact cround_ten

/-- Float PCR with a zero forward byte count: 0 for an empty flow, else
exactly -10. -/
theorem pcrValF_rev (y : Nat) : pcrValF 0 y = if y = 0 then 0 else -10 := by
  unfold pcrValF
  rcases eq_or_ne y 0 with h | h
  · simp [h]
  · rw [if_neg (by simpa using h), if_neg h]
    unfold fmul fdiv fsub fadd
    rw [show ((0 : ℕ) : ℚ) = 0 by norm_num, toF32_zero, zero_sub, zero_add, toF32_neg]
    have hy : (0 : ℚ) < (y : ℚ) := by exact_mod_cast Nat.pos_of_ne_zero h
    have hs : 0 < toF32 (toF32 (y : ℚ)) := toF32_pos_of_pos _ (toF32_pos_of_pos _ hy)
    rw [neg_div, div_self (ne_of_gt hs), toF32_neg, toF32_one]
    rw [show (-(1 : ℚ)) * 10 = -10 by ring, toF32_neg, toF32_ten]
    exact cround_neg_ten

/-- Converting an `int32`-range value to `uint32_t` and reading it back
through `duckdb_append_int32` is the identity. -/
theorem int32RoundTrip (z : ℤ) (h1 : -2147483648 ≤ z) (h2 : z < 2147483648) :
    int32OfUInt32 (uint32OfInt z) = z := by
  unfold int32OfUInt32 uint32OfInt
  have hmod : (0 : ℤ) ≤ z % 4294967296 := Int.emod_nonneg z (by norm_num)
  rw [Int.toNat_of_nonneg hmod]
  split <;> omega

/-- Characterization of the source risk score/severity pair against the
spec bucketing table. -/
theorem riskOf_spec (r2s : Nat → Nat) (risk : Nat) :
    riskOf r2s risk =
      if risk = 0 then (0, 0)
      else (r2s risk % 4294967296, severitySpec (r2s risk % 4294967296)) := by
  unfold riskOf severitySpec
  rcases Nat.eq_zero_or_pos risk with h | h
  · simp [h]
  · rw [if_pos h, if_neg (Nat.pos_iff_ne_zero.mp h)]
    refine Prod.ext rfl ?_
    simp only
    split_ifs <;> omega

/-- Exhaustive case analysis of the country column computation. -/
theorem countryOf_cases (db : Option (String → Option String)) (priv : Bool)
    (abuf : String) :
    countryOf db priv abuf = "na" ∨
      (countryOf db priv abuf = "private" ∧ db.isSome = true) ∨
      (∃ lk iso, db = some lk ∧ lk abuf = some iso ∧
        countryOf db priv abuf = ToLowerString (mmdbStrTrunc 32 iso)) := by
  unfold countryOf
  cases db with
  | none => exact Or.inl rfl
  | some lk =>
    by_cases hp : priv = true
    · exact Or.inr (Or.inl ⟨by simp [hp], rfl⟩)
    · cases hlk : lk abuf with
      | none => exact Or.inl (by simp [hp, hlk])
      | some iso =>
        exact Or.inr (Or.inr ⟨lk, iso, rfl, hlk, by simp [hp, hlk]⟩)

/-- The `flow` schema splits around the 64-bit (`UBIGINT`) declaration
of the risk-bits column. -/
theorem flow_schema_split :
    ∃ a b, FLOW_SCHEMA = a ++ "ndpi_risk_bits UBIGINT," ++ b := by
  refine ⟨"CREATE TABLE flow (" ++
    "stream UINTEGER,id UUID," ++
    "observe VARCHAR,stime TIMESTAMP,etime TIMESTAMP,dur UINTEGER,rtt UINTEGER,pcr INTEGER," ++
    "proto VARCHAR,saddr VARCHAR,daddr VARCHAR,sport USMALLINT,dport USMALLINT," ++
    "iflags VARCHAR,uflags VARCHAR,stcpseq UINTEGER,dtcpseq UINTEGER," ++
    "svlan USMALLINT,dvlan USMALLINT,spkts UBIGINT,dpkts UBIGINT," ++
    "sbytes UBIGINT,dbytes UBIGINT,sentropy UTINYINT,dentropy UTINYINT," ++
    "siat UBIGINT,diat UBIGINT,sstdev UBIGINT,dstdev UBIGINT," ++
    "stcpurg UINTEGER,dtcpurg UINTEGER,ssmallpktcnt UINTEGER,dsmallpktcnt UINTEGER," ++
    "slargepktcnt UINTEGER,dlargepktcnt UINTEGER," ++
    "snonemptypktcnt UINTEGER,dnonemptypktcnt UINTEGER," ++
    "sfirstnonemptycnt USMALLINT,dfirstnonemptycnt USMALLINT," ++
    "smaxpktsize USMALLINT,dmaxpktsize USMALLINT," ++
    "sstdevpayload USMALLINT,dstdevpayload USMALLINT," ++
    "spd VARCHAR,reason VARCHAR,smac VARCHAR,dmac VARCHAR," ++
    "scountry VARCHAR,dcountry VARCHAR,sasn UINTEGER,dasn UINTEGER," ++
    "sasnorg VARCHAR,dasnorg VARCHAR,orient VARCHAR,tag VARCHAR[]," ++
    "hbos_score DOUBLE,hbos_severity UTINYINT,hbos_map MAP(VARCHAR, FLOAT)," ++
    "ndpi_appid VARCHAR,ndpi_category VARCHAR,",
    "ndpi_risk_score UINTEGER," ++
    "ndpi_risk_severity UTINYINT, ndpi_risk_list VARCHAR[],trigger TINYINT);", ?_⟩
  have hmid :
      ("ndpi_appid VARCHAR,ndpi_category VARCHAR,ndpi_risk_bits UBIGINT,ndpi_risk_score UINTEGER," : String) =
        "ndpi_appid VARCHAR,ndpi_category VARCHAR," ++ "ndpi_risk_bits UBIGINT," ++
          "ndpi_risk_score UINTEGER," := by decide
  unfold FLOW_SCHEMA
  rw [hmid]
  simp only [String.append_assoc]


/-- Claim C1 (code bug): after a sink append failure on record 1 of 1
in file-replay mode the drain does signal a fatal error
(`MIO_F_CTL_ERROR`, return FALSE), but because `ipfix_flows` is a
`uint64_t` the `-1` error marker becomes 2^64-1, the `ipfix_flows > 0`
guard of `CloseFileSink` passes, and the partially filled table IS
exported and renamed to its final, fully-qualified name - contradicting
the claim that no file is ever renamed to its final name for that
epoch. -/
theorem claim_C1_append_failure_still_renames :
    (ReaderToFileSink oNone "yaf" ⟨0, 0, []⟩ [(flowBase, false)] ReaderEnd.eof).error = true ∧
    (ReaderToFileSink oNone "yaf" ⟨0, 0, []⟩ [(flowBase, false)] ReaderEnd.eof).ret = false ∧
    (ReaderToFileSink oNone "yaf" ⟨0, 0, []⟩ [(flowBase, false)] ReaderEnd.eof).sinkclose = true ∧
    (ReaderToFileSink oNone "yaf" ⟨0, 0, []⟩ [(flowBase, false)] ReaderEnd.eof).gnat.ipfix_flows
      = U64_MAX ∧
    (CloseFileSink (ReaderToFileSink oNone "yaf" ⟨0, 0, []⟩ [(flowBase, false)]
        ReaderEnd.eof).gnat "out" "yaf" true true true "T").2 =
      [FsAct.exportTable "out/.yaf-T", FsAct.rename "out/.yaf-T" "out/yaf-T.parquet"] := by
  decide

/-- Claim C2, amended: a record with protocol identifier 0 and
destination IPv4 address 0 is never appended as a row and is not an
error in either mode; in file-replay mode (`ReaderToFileSink`) the
skipped counter is incremented and the written counter is untouched,
but in live-listener mode (`SocketToFileSink`) the written counter is
incremented and the skipped counter is untouched. -/
theorem claim_C2_skip_record_counters (o : Collaborators) (observe : String)
    (g : GnatCounters) (f : YAF_FLOW_RECORD) (ok : Bool)
    (h1 : f.protocolIdentifier = 0) (h2 : f.destinationIPv4Address = 0) :
    ReaderToFileSink o observe g [(f, ok)] ReaderEnd.eof =
      ⟨⟨g.ipfix_flows, g.ipfix_flows_skipped + 1, g.table⟩, true, false, true, true⟩ ∧
    SocketToFileSink o observe g [(f, ok)] SocketEnd.eom =
      ⟨⟨g.ipfix_flows + 1, g.ipfix_flows_skipped, g.table⟩, false, false, false, true⟩ := by
  have hw : WriteIpfixRecord o observe ok f = (0, none) := by
    unfold WriteIpfixRecord
    rw [if_pos ⟨h1, h2⟩]
  constructor
  · simp [ReaderToFileSink, hw]
  · simp [SocketToFileSink, hw]

/-- Claim C2 witness: concrete instance of the amended statement. -/
theorem claim_C2_skip_record_counters_witness :
    ReaderToFileSink oNone "x" ⟨5, 7, []⟩ [(flowSkip, true)] ReaderEnd.eof =
      ⟨⟨5, 8, []⟩, true, false, true, true⟩ ∧
    SocketToFileSink oNone "x" ⟨5, 7, []⟩ [(flowSkip, true)] SocketEnd.eom =
      ⟨⟨6, 7, []⟩, false, false, false, true⟩ :=
  claim_C2_skip_record_counters oNone "x" ⟨5, 7, []⟩ flowSkip true rfl rfl

/-- Claim C2 counterexample: in live-listener mode a skipped record
increments the flows-written counter and leaves the flows-skipped
counter at zero, refuting the claim for the live ingestion mode. -/
theorem claim_C2_counterexample :
    (SocketToFileSink oNone "x" ⟨0, 0, []⟩ [(flowSkip, true)] SocketEnd.eom).gnat.ipfix_flows
      = 1 ∧
    (SocketToFileSink oNone "x" ⟨0, 0, []⟩ [(flowSkip, true)] SocketEnd.eom).gnat.ipfix_flows_skipped
      = 0 ∧
    (SocketToFileSink oNone "x" ⟨0, 0, []⟩ [(flowSkip, true)] SocketEnd.eom).gnat.table = [] ∧
    (SocketToFileSink oNone "x" ⟨0, 0, []⟩ [(flowSkip, true)] SocketEnd.eom).error = false := by
  decide

/-- Claim C3, amended: with an ASN database configured, every private
source IPv4 address receives the deterministic synthetic ASN
`64512 + ((address >> 8) % 1024)`, which lies in [64512, 65535] (the
claimed upper bound 65534 is wrong: segment value 1023 yields
65535). -/
theorem claim_C3_synthetic_private_asn (o : Collaborators) (observe : String)
    (f : YAF_FLOW_RECORD) (db : String → Option AsnEntry)
    (hdb : o.asn_mmdb = some db) (hip : f.sourceIPv4Address ≠ 0)
    (hpriv : IsPrivateAddress (ipv4ToString f.sourceIPv4Address) = true) :
    (AppendIpfixRecord o observe f).sasn = 64512 + ((f.sourceIPv4Address / 256) % 1024) ∧
    64512 ≤ (AppendIpfixRecord o observe f).sasn ∧
    (AppendIpfixRecord o observe f).sasn ≤ 65535 := by
  have hs : sabufOf f = ipv4ToString f.sourceIPv4Address := by
    unfold sabufOf
    rw [if_pos (Or.inl hip)]
  have h1 : (AppendIpfixRecord o observe f).sasn =
      (asnOf o.asn_mmdb f.sourceIPv4Address (IsPrivateAddress (sabufOf f)) (sabufOf f)).1 := by
    simp only [AppendIpfixRecord]
  have h2 : (asnOf o.asn_mmdb f.sourceIPv4Address (IsPrivateAddress (sabufOf f)) (sabufOf f)).1 =
      64512 + ((f.sourceIPv4Address / 256) % 1024) := by
    rw [hs, hpriv, hdb]
    unfold asnOf
    simp [hip]
  have hb : (f.sourceIPv4Address / 256) % 1024 < 1024 :=
    Nat.mod_lt _ (by norm_num)
  refine ⟨h1.trans h2, ?_, ?_⟩ <;> rw [h1, h2] <;> omega

/-- Claim C3 witness: source 10.0.0.1 with an ASN database present. -/
theorem claim_C3_synthetic_private_asn_witness :
    (AppendIpfixRecord oAsn "x" flowPriv0).sasn =
      64512 + ((flowPriv0.sourceIPv4Address / 256) % 1024) ∧
    64512 ≤ (AppendIpfixRecord oAsn "x" flowPriv0).sasn ∧
    (AppendIpfixRecord oAsn "x" flowPriv0).sasn ≤ 65535 :=
  claim_C3_synthetic_private_asn oAsn "x" flowPriv0 (fun _ => none) rfl (by decide) (by decide)

/-- Claim C3 counterexample: the private address 10.3.255.1 yields
synthetic ASN 65535, outside the claimed range [64512, 65534]. -/
theorem claim_C3_counterexample :
    IsPrivateAddress (ipv4ToString flowPriv1023.sourceIPv4Address) = true ∧
    (AppendIpfixRecord oAsn "x" flowPriv1023).sasn = 65535 ∧
    ¬(AppendIpfixRecord oAsn "x" flowPriv1023).sasn ≤ 65534 := by
  decide

/-- Claim C4 (code bug): with the ASN database present, the multicast
source 224.0.0.1 and the broadcast destination 255.255.255.255 both
fall into the synthetic-ASN else-branch of `AppendIpfixRecord`: their
ASN-organization labels, set to "multicast"/"broadcast" at lines
566-605, are overwritten with "private" and they receive non-zero
synthetic ASNs (64512 and 65535) instead of the claimed ASN 0. -/
theorem claim_C4_multicast_broadcast_get_synthetic_asn :
    IsMulticastAddress flowMcastBcast.sourceIPv4Address = true ∧
    IsBroadcastAddress flowMcastBcast.destinationIPv4Address = true ∧
    (AppendIpfixRecord oAsn "x" flowMcastBcast).sasn = 64512 ∧
    (AppendIpfixRecord oAsn "x" flowMcastBcast).sasnorg = "private" ∧
    (AppendIpfixRecord oAsn "x" flowMcastBcast).dasn = 65535 ∧
    (AppendIpfixRecord oAsn "x" flowMcastBcast).dasnorg = "private" := by
  decide

/-- Claim C5: for a non-zero risk bitmask the written severity is
exactly the spec bucketing of the written (collaborator-computed) risk
score, and for a zero bitmask both score and severity are 0. -/
theorem claim_C5_risk_severity_buckets (o : Collaborators) (observe : String)
    (f : YAF_FLOW_RECORD) :
    (AppendIpfixRecord o observe f).ndpi_risk_severity =
      severitySpec ((AppendIpfixRecord o observe f).ndpi_risk_score) ∧
    (AppendIpfixRecord o observe f).ndpi_risk_score =
      (if f.ndpi_risk = 0 then 0 else o.risk2score f.ndpi_risk % 4294967296) := by
  have h1 : (AppendIpfixRecord o observe f).ndpi_risk_score =
      (riskOf o.risk2score f.ndpi_risk).1 := by
    simp only [AppendIpfixRecord]
  have h2 : (AppendIpfixRecord o observe f).ndpi_risk_severity =
      (riskOf o.risk2score f.ndpi_risk).2 := by
    simp only [AppendIpfixRecord]
  rw [h1, h2, riskOf_spec]
  rcases eq_or_ne f.ndpi_risk 0 with h | h
  · simp [h, severitySpec]
  · simp [h]

/-- Claim C6, amended: the PCR column equals the single-precision
float evaluation of the scaled byte-count ratio (`pcrValF`, one
binary32 rounding per operation) - not the exactly rounded ratio,
from which it can differ by one near bucket boundaries; it is always
an integer in [-10, 10], and PCR(0,0) = 0, PCR(x,0) = 10 for x > 0,
PCR(0,y) = -10 for y > 0 (these cases are exact in float: x/x divides
to exactly 1.0). -/
theorem claim_C6_pcr_column (o : Collaborators) (observe : String) (f : YAF_FLOW_RECORD) :
    (AppendIpfixRecord o observe f).pcr = pcrValF f.dataByteCount f.reverseDataByteCount ∧
    -10 ≤ (AppendIpfixRecord o observe f).pcr ∧
    (AppendIpfixRecord o observe f).pcr ≤ 10 ∧
    (∀ x : Nat, pcrValF x 0 = if x = 0 then 0 else 10) ∧
    (∀ y : Nat, pcrValF 0 y = if y = 0 then 0 else -10) := by
  have hr := pcrValF_range f.dataByteCount f.reverseDataByteCount
  have h1 : (AppendIpfixRecord o observe f).pcr =
      PcrColumn f.dataByteCount f.reverseDataByteCount := by
    simp only [AppendIpfixRecord]
  have h2 : PcrColumn f.dataByteCount f.reverseDataByteCount =
      pcrValF f.dataByteCount f.reverseDataByteCount := by
    unfold PcrColumn
    exact int32RoundTrip _ (by omega) (by omega)
  refine ⟨h1.trans h2, ?_, ?_, pcrValF_fwd, pcrValF_rev⟩ <;> rw [h1, h2] <;> omega

/-- Claim C6 counterexample: for byte counts 33554433 forward and
30358772 reverse the program stores PCR 0 - the float quotient rounds
to 0.49999997... and `round` gives 0 - while the exact ratio scaled by
10 is 0.50000011..., so the claim's "rounded to the nearest integer"
value is 1.  The claimed equality with the exactly rounded ratio fails
at this input. -/
theorem claim_C6_counterexample :
    (AppendIpfixRecord oNone "x" flowPcr).pcr = 0 ∧
    pcrExact flowPcr.dataByteCount flowPcr.reverseDataByteCount = 1 := by
  have hc1 : toF32 ((33554433 : ℕ) : ℚ) = 33554432 := by
    have l0 : natLog2 1 = 0 := by decide
    have l1 : natLog2 (Int.toNat 33554433) = 25 := by decide
    norm_num [toF32, toF32pos, qexp2, rne, l0, l1]
  have hc2 : toF32 ((30358772 : ℕ) : ℚ) = 30358772 := by
    have l0 : natLog2 1 = 0 := by decide
    have l1 : natLog2 (Int.toNat 30358772) = 24 := by decide
    norm_num [toF32, toF32pos, qexp2, rne, l0, l1]
  have hc3 : toF32 ((33554432 : ℚ) - 30358772) = 3195660 := by
    have l0 : natLog2 1 = 0 := by decide
    have l1 : natLog2 (Int.toNat 3195660) = 21 := by decide
    norm_num [toF32, toF32pos, qexp2, rne, l0, l1]
  have hc4 : toF32 ((33554432 : ℚ) + 30358772) = 63913204 := by
    have l0 : natLog2 1 = 0 := by decide
    have l1 : natLog2 (Int.toNat 63913204) = 25 := by decide
    norm_num [toF32, toF32pos, qexp2, rne, l0, l1]
  have hc5 : toF32 ((3195660 : ℚ) / 63913204) = 3355443 / 67108864 := by
    have l1 : natLog2 (Int.toNat 798915) = 19 := by decide
    have l2 : natLog2 15978301 = 23 := by decide
    norm_num [toF32, toF32pos, qexp2, rne, l1, l2]
  have hc6 : toF32 ((3355443 : ℚ) / 67108864 * 10) = 16777215 / 33554432 := by
    have l1 : natLog2 (Int.toNat 16777215) = 23 := by decide
    have l2 : natLog2 33554432 = 25 := by decide
    norm_num [toF32, toF32pos, qexp2, rne, l1, l2]
  have hp : pcrValF 33554433 30358772 = 0 := by
    unfold pcrValF
    rw [if_neg (by norm_num)]
    unfold fmul fdiv fsub fadd
    rw [hc1, hc2, hc3, hc4, hc5, hc6]
    unfold cround
    rw [if_pos (by norm_num)]
    rw [show (16777215 : ℚ) / 33554432 + 1 / 2 = 33554431 / 33554432 by norm_num]
    rw [Int.floor_eq_iff] <;> norm_num
  constructor
  · have hb : (AppendIpfixRecord oNone "x" flowPcr).pcr =
        PcrColumn flowPcr.dataByteCount flowPcr.reverseDataByteCount := by
      simp only [AppendIpfixRecord]
    rw [hb]
    have hfields : PcrColumn flowPcr.dataByteCount flowPcr.reverseDataByteCount =
        PcrColumn 33554433 30358772 := rfl
    rw [hfields]
    unfold PcrColumn
    rw [hp]
    norm_num [uint32OfInt, int32OfUInt32]
  · have hfields : pcrExact flowPcr.dataByteCount flowPcr.reverseDataByteCount =
        pcrExact 33554433 30358772 := rfl
    rw [hfields]
    unfold pcrExact
    rw [if_neg (by norm_num)]
    unfold cround
    rw [if_pos (by norm_num)]
    rw [show (((33554433 : ℕ) : ℚ) - ((30358772 : ℕ) : ℚ)) /
        (((33554433 : ℕ) : ℚ) + ((30358772 : ℕ) : ℚ)) * 10 + 1 / 2 =
        25565285 / 25565282 by push_cast; norm_num]
    rw [Int.floor_eq_iff] <;> norm_num

/-- Claim C7: whenever the flows-written counter is 0, neither
`CloseFileSink` nor `RotateFileSink` performs any filesystem action (no
export, no rename, hence no published file), and draining an empty
input leaves the written counter at 0. -/
theorem claim_C7_no_empty_file (g : GnatCounters) (output_dir observe time_str : String)
    (uuid_ok export_ok rename_ok : Bool) (outtime : Nat) (o : Collaborators)
    (h : g.ipfix_flows = 0) :
    (CloseFileSink g output_dir observe uuid_ok export_ok rename_ok time_str).2 = [] ∧
    (RotateFileSink g output_dir observe export_ok rename_ok outtime).2 = [] ∧
    (ReaderToFileSink o observe ⟨0, 0, []⟩ [] ReaderEnd.eof).gnat.ipfix_flows = 0 := by
  refine ⟨?_, ?_, rfl⟩
  · unfold CloseFileSink
    split_ifs <;> first | rfl | omega
  · unfold RotateFileSink
    split_ifs <;> first | rfl | omega

/-- Claim C7 witness: concrete zero-flow close and rotate. -/
theorem claim_C7_no_empty_file_witness :
    (CloseFileSink ⟨0, 0, []⟩ "out" "yaf" true true true "T").2 = [] ∧
    (RotateFileSink ⟨0, 0, []⟩ "" "yaf" true true 7).2 = [] ∧
    (ReaderToFileSink oNone "yaf" ⟨0, 0, []⟩ [] ReaderEnd.eof).gnat.ipfix_flows = 0 :=
  claim_C7_no_empty_file ⟨0, 0, []⟩ "out" "yaf" "T" true true true 7 oNone rfl

/-- Claim C8 (code bug): when the DPI category resolves to VPN the
source appends "vpn." to the END of the application id (the comment
says prepend): for appid "OpenVPN" in category "VPN" the written value
is "openvpnvpn.", which does not start with "vpn." and differs from
the prepended form "vpn.openvpn". -/
theorem claim_C8_vpn_label_appended_not_prepended :
    (AppendIpfixRecord oVpn "x" flowBase).ndpi_category = "vpn" ∧
    (AppendIpfixRecord oVpn "x" flowBase).ndpi_appid = "openvpnvpn." ∧
    (AppendIpfixRecord oVpn "x" flowBase).ndpi_appid.data.take 4 ≠ "vpn.".data ∧
    (AppendIpfixRecord oVpn "x" flowBase).ndpi_appid ≠ "vpn." ++ "openvpn" := by
  decide

/-- Claim C9, amended: each endpoint country column is exactly one of:
"na" (no database, failed/missed lookup), "private" (database present
and endpoint private), or the lower-cased truncated ISO code of a
successful lookup; the fallback is "na", never "unk", and with no
database configured even private endpoints get "na". -/
theorem claim_C9_country_labels (o : Collaborators) (observe : String) (f : YAF_FLOW_RECORD) :
    ((AppendIpfixRecord o observe f).scountry = "na" ∨
      ((AppendIpfixRecord o observe f).scountry = "private" ∧ o.country_mmdb.isSome = true) ∨
      (∃ lk iso, o.country_mmdb = some lk ∧ lk (sabufOf f) = some iso ∧
        (AppendIpfixRecord o observe f).scountry = ToLowerString (mmdbStrTrunc 32 iso))) ∧
    ((AppendIpfixRecord o observe f).dcountry = "na" ∨
      ((AppendIpfixRecord o observe f).dcountry = "private" ∧ o.country_mmdb.isSome = true) ∨
      (∃ lk iso, o.country_mmdb = some lk ∧ lk (dabufOf f) = some iso ∧
        (AppendIpfixRecord o observe f).dcountry = ToLowerString (mmdbStrTrunc 32 iso))) := by
  have hs : (AppendIpfixRecord o observe f).scountry =
      countryOf o.country_mmdb (IsPrivateAddress (sabufOf f)) (sabufOf f) := by
    simp only [AppendIpfixRecord]
  have hd : (AppendIpfixRecord o observe f).dcountry =
      countryOf o.country_mmdb (IsPrivateAddress (dabufOf f)) (dabufOf f) := by
    simp only [AppendIpfixRecord]
  rw [hs, hd]
  exact ⟨countryOf_cases _ _ _, countryOf_cases _ _ _⟩

/-- Claim C9 counterexample: no country database configured and a
private source 10.0.0.1: the country column is "na", neither "private"
nor "unk", refuting the claim that the label is independent of whether
the database is configured. -/
theorem claim_C9_counterexample :
    IsPrivateAddress (sabufOf flowPriv0) = true ∧
    (AppendIpfixRecord oNone "x" flowPriv0).scountry = "na" ∧
    (AppendIpfixRecord oNone "x" flowPriv0).scountry ≠ "private" ∧
    (AppendIpfixRecord oNone "x" flowPriv0).scountry ≠ "unk" := by
  decide

/-- Claim C10: the schema declares the risk-bits column as UBIGINT
(64-bit), but the row stores the risk bitmask reduced mod 2^32 (it is
written with `duckdb_append_uint32`); for any record with a bit at or
above position 32 set, the stored value differs from the record
field. -/
theorem claim_C10_risk_bits_truncated (o : Collaborators) (observe : String)
    (f : YAF_FLOW_RECORD) (hHigh : 4294967296 ≤ f.ndpi_risk) :
    (AppendIpfixRecord o observe f).ndpi_risk_bits = f.ndpi_risk % 4294967296 ∧
    (AppendIpfixRecord o observe f).ndpi_risk_bits ≠ f.ndpi_risk ∧
    (∃ a b, FLOW_SCHEMA = a ++ "ndpi_risk_bits UBIGINT," ++ b) := by
  have h1 : (AppendIpfixRecord o observe f).ndpi_risk_bits = f.ndpi_risk % 4294967296 := rfl
  refine ⟨h1, ?_, flow_schema_split⟩
  rw [h1]
  have := Nat.mod_lt f.ndpi_risk (show 0 < 4294967296 by norm_num)
  omega

/-- Claim C10 witness: a record with only bit 32 set stores 0. -/
theorem claim_C10_risk_bits_truncated_witness :
    (AppendIpfixRecord oNone "x" flowRiskHigh).ndpi_risk_bits
      = flowRiskHigh.ndpi_risk % 4294967296 ∧
    (AppendIpfixRecord oNone "x" flowRiskHigh).ndpi_risk_bits ≠ flowRiskHigh.ndpi_risk ∧
    (∃ a b, FLOW_SCHEMA = a ++ "ndpi_risk_bits UBIGINT," ++ b) :=
  claim_C10_risk_bits_truncated oNone "x" flowRiskHigh (by decide)


end Gnat
